import Mathlib

/-!
Verification development for the associative-memory core of an
OpenSearch MCP server (embedding generation, text normalisation,
hybrid query construction, memory graph operations, access-stat
updates and schema bootstrap).

The Python modules `utils/embeddings.py`, `utils/config.py` and
`tools/memory.py` are shallowly embedded below.  Python dictionaries
are modelled as insertion-ordered association lists over an inductive
`JValue` type; machine floats are modelled as rationals; operations
that can raise are modelled in `Except String`; the process-wide
embedding-model singleton is threaded as explicit `Option Model`
state.  Ambient effects (current timestamp, generated uuid hex, the
backing store's responses, the environment) are passed as parameters.
Python behaviour that the embedded code never inspects (json.loads,
str() of non-string values, float formatting, numeric parsing of
environment strings) is abstracted into a `PyOracle` parameter, so
theorems quantified over the oracle hold for every such behaviour.
-/

/-- A Python value as it appears in the documents handled by the
memory system: `None`, booleans, numbers (ints and floats collapsed
to rationals), strings, lists and dicts (insertion-ordered key/value
lists). -/
inductive JValue where
  | jnull : JValue
  | jbool : Bool → JValue
  | jnum : ℚ → JValue
  | jstr : String → JValue
  | jarr : List JValue → JValue
  | jobj : List (String × JValue) → JValue

/-- Abstracted Python behaviours that the embedded functions delegate
to but never themselves inspect: `json.loads` (`none` models a raised
`JSONDecodeError`), `str()` applied to a non-string value, `f-string`
formatting `:.2f` of a float, and `int()` / `float()` parsing of an
environment string (`none` models a raised `ValueError`). -/
structure PyOracle where
  jsonLoads : String → Option JValue
  pyStr : JValue → String
  fmt2 : ℚ → String
  parseInt : String → Option Int
  parseFloat : String → Option ℚ

/-- A concrete oracle used to instantiate closed theorems. -/
def trivOracle : PyOracle :=
  { jsonLoads := fun _ => none
  , pyStr := fun _ => ""
  , fmt2 := fun _ => "1.00"
  , parseInt := fun _ => none
  , parseFloat := fun _ => none }

/-- Python `str()` of a value: the identity on strings, the oracle on
everything else. -/
def pyStrOf (o : PyOracle) : JValue → String
  | .jstr s => s
  | v => o.pyStr v

/-- The characters Python's `str.strip()` removes. -/
def isPySpace (c : Char) : Bool :=
  c = ' ' || c = '\t' || c = '\n' || c = '\r' || c = '\x0b' || c = '\x0c'

/-- Python `str.strip()`. -/
def pyStrip (s : String) : String :=
  String.mk (((s.toList.dropWhile isPySpace).reverse.dropWhile isPySpace).reverse)

/-- Python truthiness of a value. -/
def truthy : JValue → Bool
  | .jnull => false
  | .jbool b => b
  | .jnum q => q ≠ 0
  | .jstr s => s ≠ ""
  | .jarr xs => !xs.isEmpty
  | .jobj kvs => !kvs.isEmpty

/-- Lookup in a Python dict (association list): `d[k]` / `k in d`. -/
def dictGet : List (String × JValue) → String → Option JValue
  | [], _ => none
  | (k, v) :: rest, key => if k = key then some v else dictGet rest key

/-- Python `d.get(k, default)`. -/
def dictGetD (d : List (String × JValue)) (k : String) (dflt : JValue) : JValue :=
  (dictGet d k).getD dflt

/-- Python `d[k] = v`: replace in place if the key is present,
append otherwise (insertion order preserved). -/
def dictSet : List (String × JValue) → String → JValue → List (String × JValue)
  | [], k, v => [(k, v)]
  | (k', v') :: rest, k, v =>
      if k' = k then (k', v) :: rest else (k', v') :: dictSet rest k v

/-- The key list of a dict. -/
def keys (d : List (String × JValue)) : List String := d.map Prod.fst

/-- Extract the underlying strings from a list of values, `none` if
some element is not a string. -/
def allStrings : List JValue → Option (List String)
  | [] => some []
  | .jstr s :: rest => (allStrings rest).map (s :: ·)
  | _ :: _ => none

/-- Python `sep.join(parts)` over a list of values: raises `TypeError`
if some element is not a string. -/
def pyJoin (sep : String) (parts : List JValue) : Except String String :=
  match allStrings parts with
  | some strs => .ok (String.intercalate sep strs)
  | none => .error "sequence item: expected str instance"

/-!  ## utils/embeddings.py  -/

/-- `DEFAULT_DIMENSION` (embeddings.py line 20). -/
def DEFAULT_DIMENSION : Nat := 384

/-- `MAX_SEQUENCE_LENGTH` (embeddings.py line 22). -/
def MAX_SEQUENCE_LENGTH : Nat := 512

/-- The embedding-model collaborator (`SentenceTransformer`):
`dim` models `get_sentence_embedding_dimension()` (`none` = the call
raises), `encode` models `encode(text, normalize_embeddings)`
(`none` = the call raises). -/
structure Model where
  dim : Option Nat
  encode : String → Bool → Option (List ℚ)

/-- `get_embedding_model` (embeddings.py lines 28-54) over the
process-wide `_model_instance` singleton `st`.  The one-time load
(model-name selection included) is abstracted into `loader`
(`none` = `SentenceTransformer(...)` raises, in which case the
singleton assignment never happens).  Returns (result, new singleton
state); a `none` result models the re-raised load failure. -/
def get_embedding_model (st loader : Option Model) : Option Model × Option Model :=
  match st with
  | some m => (some m, some m)
  | none =>
      match loader with
      | some m => (some m, some m)
      | none => (none, none)

/-- The character-level truncation applied before encoding
(embeddings.py lines 79-81): text longer than
`MAX_SEQUENCE_LENGTH * 4` characters is cut to that length. -/
def truncated (text : String) : String :=
  if text.length > MAX_SEQUENCE_LENGTH * 4
  then String.mk (text.toList.take (MAX_SEQUENCE_LENGTH * 4)) else text

/-- `generate_embedding` (embeddings.py lines 57-101).  Returns
(vector, new singleton state).  Faithful points: blank text returns a
`DEFAULT_DIMENSION` zero vector without touching the model; over-long
text is truncated to `MAX_SEQUENCE_LENGTH * 4` characters; on any
failure the zero-vector dimension is taken from the `model`
*argument* when one was passed (falling back to the default when its
dimension introspection raises), and is the default otherwise. -/
def generate_embedding (text : String) (model : Option Model) (normalize : Bool)
    (st loader : Option Model) : List ℚ × Option Model :=
  if pyStrip text = "" then
    (List.replicate DEFAULT_DIMENSION 0, st)
  else
    match model with
    | some m =>
        match m.encode (truncated text) normalize with
        | some v => (v, st)
        | none => (List.replicate (m.dim.getD DEFAULT_DIMENSION) 0, st)
    | none =>
        match get_embedding_model st loader with
        | (some m, st') =>
            match m.encode (truncated text) normalize with
            | some v => (v, st')
            | none => (List.replicate DEFAULT_DIMENSION 0, st')
        | (none, st') => (List.replicate DEFAULT_DIMENSION 0, st')

/-- `prepare_text_for_embedding` (embeddings.py lines 104-172).
`text_parts` is accumulated as a list of raw values exactly as the
source appends them; the final `" ".join` (and the join of a tag
list) raises `TypeError` on non-string elements, modelled in
`Except`.  The chain of `elif`s on `content` is transcribed in source
order: a non-empty string is appended as-is by the second branch, so
the JSON branch can only be reached by an empty string (whose
stripped form never starts with a brace). -/
def prepare_text_for_embedding (o : PyOracle) (document : List (String × JValue)) :
    Except String String :=
  let parts0 : List JValue := []
  let parts1 :=
    match dictGet document "title" with
    | some v => if truthy v then parts0 ++ [v] else parts0
    | none => parts0
  let parts2E : Except String (List JValue) :=
    match dictGet document "content" with
    | none => .ok parts1
    | some content =>
        match content with
        | .jobj kvs =>
            let pa :=
              match dictGet kvs "summary" with
              | some s => if truthy s then parts1 ++ [s] else parts1
              | none => parts1
            let pb :=
              match dictGet kvs "key_points" with
              | some kp =>
                  if truthy kp then
                    match kp with
                    | .jarr xs => pa ++ xs
                    | other => pa ++ [.jstr (pyStrOf o other)]
                  else pa
              | none => pa
            let pc :=
              match dictGet kvs "description" with
              | some d => if truthy d then pb ++ [d] else pb
              | none => pb
            .ok pc
        | .jstr s =>
            if s ≠ "" then .ok (parts1 ++ [.jstr s])
            else if (pyStrip s).startsWith "\x7b" then
              match o.jsonLoads s with
              | some (.jobj kvs) =>
                  .ok (parts1 ++ kvs.filterMap (fun kv =>
                    match kv.2 with
                    | .jstr v => if v ≠ "" then some (JValue.jstr v) else none
                    | _ => none))
              | some _ => .ok parts1
              | none => .ok (parts1 ++ [.jstr s])
            else .ok parts1
        | _ => .ok parts1
  match parts2E with
  | .error e => .error e
  | .ok parts2 =>
      let parts3E : Except String (List JValue) :=
        match dictGet document "tags" with
        | some t =>
            if truthy t then
              match t with
              | .jarr xs =>
                  match pyJoin " " xs with
                  | .error e => .error e
                  | .ok joined => .ok (parts2 ++ [.jstr joined])
              | .jstr s => .ok (parts2 ++ [.jstr s])
              | _ => .ok parts2
            else .ok parts2
        | none => .ok parts2
      match parts3E with
      | .error e => .error e
      | .ok parts3 =>
          match pyJoin " " parts3 with
          | .error e => .error e
          | .ok combined =>
              .ok (pyStrip
                (if combined = "" ∨ pyStrip combined = "" then
                  pyStrOf o (dictGetD document "memory_id" (.jstr "unknown")) ++ " " ++
                    pyStrOf o (dictGetD document "memory_type" (.jstr "unknown"))
                else combined))

/-- `enrich_document_with_embedding` (embeddings.py lines 175-197):
copies the document, prepares its text, generates the embedding with
the singleton model and adds it under the key `"embedding"`.  A raise
from text preparation propagates (modelled as the `.error` result);
`generate_embedding` itself never raises. -/
def enrich_document_with_embedding (o : PyOracle) (st loader : Option Model)
    (document : List (String × JValue)) :
    Except String (List (String × JValue)) × Option Model :=
  match prepare_text_for_embedding o document with
  | .error e => (.error e, st)
  | .ok text =>
      let r := generate_embedding text none true st loader
      (.ok (dictSet document "embedding" (.jarr (r.1.map JValue.jnum))), r.2)

/-!  ## utils/config.py  -/

/-- The configuration record: the keys of `DEFAULT_CONFIG`
(config.py lines 15-37).  The nested `index_settings` dict is held as
its two entries. -/
structure Config where
  embedding_model : String
  embedding_dimension : Int
  normalize_embeddings : Bool
  index_knn : Bool
  index_knn_space_type : String
  default_memory_index : String
  legacy_memory_index : String
  confidence_decay_rate : ℚ
  vector_search_weight : ℚ
  keyword_search_weight : ℚ
  default_search_size : Int
  minimum_score : ℚ

/-- `DEFAULT_CONFIG` (config.py lines 15-37). -/
def DEFAULT_CONFIG : Config :=
  { embedding_model := "intfloat/e5-small-v2"
  , embedding_dimension := 384
  , normalize_embeddings := true
  , index_knn := true
  , index_knn_space_type := "l2"
  , default_memory_index := "slarglebart_memories_v2"
  , legacy_memory_index := "slarglebart_memories"
  , confidence_decay_rate := 1/20
  , vector_search_weight := 7/10
  , keyword_search_weight := 3/10
  , default_search_size := 10
  , minimum_score := 3/10 }

/-- Lookup of an environment variable in the ambient environment,
modelled as an association list. -/
def envLookup (env : List (String × String)) (k : String) : Option String :=
  match env with
  | [] => none
  | (k', v) :: rest => if k' = k then some v else envLookup rest k

/-- `get_config` (config.py lines 40-88): defaults overridden by the
five mapped environment variables, with the source's type-directed
conversion — `embedding_dimension` through `int()` and the two
weights through `float()`, an unparsable value being logged and the
default retained; the two string keys are taken verbatim. -/
def get_config (o : PyOracle) (env : List (String × String)) : Config :=
  let c := DEFAULT_CONFIG
  let c := match envLookup env "EMBEDDING_MODEL" with
    | some v => { c with embedding_model := v }
    | none => c
  let c := match envLookup env "EMBEDDING_DIMENSION" with
    | some v => match o.parseInt v with
        | some n => { c with embedding_dimension := n }
        | none => c
    | none => c
  let c := match envLookup env "MEMORY_INDEX" with
    | some v => { c with default_memory_index := v }
    | none => c
  let c := match envLookup env "VECTOR_SEARCH_WEIGHT" with
    | some v => match o.parseFloat v with
        | some q => { c with vector_search_weight := q }
        | none => c
    | none => c
  let c := match envLookup env "KEYWORD_SEARCH_WEIGHT" with
    | some v => match o.parseFloat v with
        | some q => { c with keyword_search_weight := q }
        | none => c
    | none => c
  c

/-- A filter clause of the hybrid query: a `term` filter or a `range`
filter on `created_at` with its optional `gte` / `lte` bounds. -/
inductive QFilter where
  | term : String → String → QFilter
  | range_created_at : Option String → Option String → QFilter

/-- The `time_range` argument: an optional dict that may carry the
keys `gte` and `lte`. -/
structure TimeRange where
  gte : Option String
  lte : Option String

/-- The query dict built by `get_hybrid_search_query`, field for
field: `size`, the `knn` should-clause (`vector`, `k`), the
`multi_match` should-clause (`query`, `fields`, `type`),
`minimum_should_match`, the `script_score` block (its two weights and
its `query_vector` parameter, standing for the f-string-built painless
source), and the optional `filter` list. -/
structure HybridQuery where
  size : Int
  knn_vector : List ℚ
  knn_k : Int
  multimatch_query : String
  multimatch_fields : List String
  multimatch_type : String
  minimum_should_match : Int
  script_vector_weight : ℚ
  script_keyword_weight : ℚ
  script_query_vector : List ℚ
  filters : List QFilter

/-- `get_hybrid_search_query` (config.py lines 166-252).  `size` is
`Option Int` (`none` = Python `None` default); `size or
get_config(...)` makes both `None` and `0` fall back to the
configured default.  The `memory_type` term filter is added when the
argument is truthy; the `created_at` range filter is added when the
inner dict is non-empty, i.e. when at least one bound key is
present. -/
def get_hybrid_search_query (o : PyOracle) (env : List (String × String))
    (text_query : String) (embedding : List ℚ) (size : Option Int)
    (memory_type : Option String) (time_range : Option TimeRange) : HybridQuery :=
  let cfg := get_config o env
  let result_size : Int :=
    match size with
    | some n => if n = 0 then cfg.default_search_size else n
    | none => cfg.default_search_size
  let filters1 : List QFilter :=
    match memory_type with
    | some mt => if mt ≠ "" then [.term "memory_type" mt] else []
    | none => []
  let filters2 : List QFilter :=
    match time_range with
    | some tr =>
        if tr.gte.isSome || tr.lte.isSome
        then filters1 ++ [.range_created_at tr.gte tr.lte]
        else filters1
    | none => filters1
  { size := result_size
  , knn_vector := embedding
  , knn_k := result_size * 2
  , multimatch_query := text_query
  , multimatch_fields := ["title^2", "content", "key_points", "tags^1.5"]
  , multimatch_type := "best_fields"
  , minimum_should_match := 1
  , script_vector_weight := cfg.vector_search_weight
  , script_keyword_weight := cfg.keyword_search_weight
  , script_query_vector := embedding
  , filters := filters2 }

/-!  ## tools/memory.py

The tools are methods registered by `MemoryTools.register_tools`.
Each embedded tool takes the ambient inputs as parameters: the
environment, the embedding-model singleton state and loader, the
current timestamp (`datetime.utcnow().isoformat()`), the generated
uuid hex, and the backing store's responses.  A tool's observable
outcome is its returned text together with the list of documents it
indexed (the `es_client.index` calls it performed).  -/

/-- One `es_client.index(index=..., id=..., body=...)` call. -/
structure IndexedDoc where
  index : String
  docId : String
  body : List (String × JValue)

/-- Python `==` between a value and a string constant. -/
def jEqStr (v : JValue) (s : String) : Bool :=
  match v with
  | .jstr t => t = s
  | _ => false

/-- An apostrophe character, for building Python error texts. -/
def squote : Char := '\''

/-- Wrap a string in apostrophes, as Python reprs do. -/
def quoteStr (s : String) : String :=
  String.singleton squote ++ s ++ String.singleton squote

/-- The default `metadata` of `store_memory` (memory.py lines 69-73). -/
def direct_creation_metadata : List (String × JValue) :=
  [("confidence", .jnum 1), ("access_count", .jnum 1), ("source", .jstr "direct_creation")]

/-- The default `metadata` of `store_session_memory`
(memory.py lines 144-148). -/
def session_summary_metadata : List (String × JValue) :=
  [("confidence", .jnum 1), ("access_count", .jnum 1), ("source", .jstr "session_summary")]

/-- `store_memory` (memory.py lines 25-90).  Returns (reply text,
indexed documents, new singleton state).  `memory_id` and `metadata`
defaults follow Python truthiness (`not memory_id`, `metadata or
{...}`); `tags or []` maps `None` and `[]` to `[]`. -/
def store_memory (o : PyOracle) (env : List (String × String))
    (st loader : Option Model) (memory_type title content : String)
    (memory_id : Option String) (tags : Option (List String))
    (metadata : Option (List (String × JValue)))
    (uuidHex timestamp : String) : String × List IndexedDoc × Option Model :=
  let memory_index := (get_config o env).default_memory_index
  let mid :=
    match memory_id with
    | some s => if s = "" then "memory_" ++ String.mk (uuidHex.toList.take 8) else s
    | none => "memory_" ++ String.mk (uuidHex.toList.take 8)
  let document : List (String × JValue) :=
    [ ("memory_id", .jstr mid)
    , ("memory_type", .jstr memory_type)
    , ("title", .jstr title)
    , ("content", .jstr content)
    , ("created_at", .jstr timestamp)
    , ("updated_at", .jstr timestamp)
    , ("tags", .jarr ((tags.getD []).map .jstr))
    , ("confidence", .jnum 1)
    , ("access_count", .jnum 1)
    , ("last_accessed", .jstr timestamp)
    , ("metadata", .jobj (match metadata with
        | some m => if m.isEmpty then direct_creation_metadata else m
        | none => direct_creation_metadata)) ]
  match enrich_document_with_embedding o st loader document with
  | (.ok enriched, st') =>
      ("Memory stored successfully with ID: " ++ mid,
       [⟨memory_index, mid, enriched⟩], st')
  | (.error e, st') =>
      ("Error storing memory: " ++ e, [], st')

/-- `store_session_memory` (memory.py lines 92-168).  The embedding
text is `f"{title} {summary} " + " ".join(key_points)` and the
embedding is attached directly to the document. -/
def store_session_memory (o : PyOracle) (env : List (String × String))
    (st loader : Option Model) (session_id title summary : String)
    (key_points next_steps : List String)
    (memory_id : Option String) (tags : Option (List String))
    (metadata : Option (List (String × JValue)))
    (uuidHex timestamp : String) : String × List IndexedDoc × Option Model :=
  let memory_index := (get_config o env).default_memory_index
  let mid :=
    match memory_id with
    | some s => if s = "" then "session_" ++ String.mk (uuidHex.toList.take 8) else s
    | none => "session_" ++ String.mk (uuidHex.toList.take 8)
  let document : List (String × JValue) :=
    [ ("memory_id", .jstr mid)
    , ("memory_type", .jstr "episodic")
    , ("title", .jstr title)
    , ("content", .jstr summary)
    , ("session_id", .jstr session_id)
    , ("key_points", .jarr (key_points.map .jstr))
    , ("next_steps", .jarr (next_steps.map .jstr))
    , ("created_at", .jstr timestamp)
    , ("updated_at", .jstr timestamp)
    , ("tags", .jarr ((tags.getD []).map .jstr))
    , ("confidence", .jnum 1)
    , ("access_count", .jnum 1)
    , ("last_accessed", .jstr timestamp)
    , ("metadata", .jobj (match metadata with
        | some m => if m.isEmpty then session_summary_metadata else m
        | none => session_summary_metadata)) ]
  let text_for_embedding :=
    title ++ " " ++ summary ++ " " ++ String.intercalate " " key_points
  let r := generate_embedding text_for_embedding none true st loader
  let document := dictSet document "embedding" (.jarr (r.1.map JValue.jnum))
  ("Session memory stored successfully with ID: " ++ mid,
   [⟨memory_index, mid, document⟩], r.2)

/-- `create_memory_connection` (memory.py lines 170-258).  The
backing store's `es_client.exists` is modelled as the pure predicate
`store`.  When an endpoint is missing the tool returns the message
naming the missing endpoint(s) and indexes nothing; otherwise it
builds the connection document, embeds the combined text and indexes
it. -/
def create_memory_connection (o : PyOracle) (env : List (String × String))
    (st loader : Option Model) (store : String → Bool)
    (source_id target_id relationship_type description : String)
    (strength : ℚ) (memory_id : Option String) (tags : Option (List String))
    (uuidHex timestamp : String) : String × List IndexedDoc × Option Model :=
  let memory_index := (get_config o env).default_memory_index
  let mid :=
    match memory_id with
    | some s => if s = "" then "connection_" ++ String.mk (uuidHex.toList.take 8) else s
    | none => "connection_" ++ String.mk (uuidHex.toList.take 8)
  let source_exists := store source_id
  let target_exists := store target_id
  if !source_exists || !target_exists then
    let missing : List String :=
      (if !source_exists then ["Source memory " ++ source_id] else []) ++
      (if !target_exists then ["Target memory " ++ target_id] else [])
    ("Cannot create connection - " ++ String.intercalate ", " missing ++ " not found",
     [], st)
  else
    let document : List (String × JValue) :=
      [ ("memory_id", .jstr mid)
      , ("memory_type", .jstr "associative")
      , ("title", .jstr ("Connection: " ++ relationship_type))
      , ("content", .jstr description)
      , ("source_id", .jstr source_id)
      , ("target_id", .jstr target_id)
      , ("relationship_type", .jstr relationship_type)
      , ("strength", .jnum strength)
      , ("created_at", .jstr timestamp)
      , ("updated_at", .jstr timestamp)
      , ("tags", .jarr ((tags.getD []).map .jstr))
      , ("confidence", .jnum 1)
      , ("access_count", .jnum 1)
      , ("last_accessed", .jstr timestamp)
      , ("metadata", .jobj [("confidence", .jnum 1), ("access_count", .jnum 1),
                            ("source", .jstr "explicit_connection")]) ]
    let text_for_embedding :=
      relationship_type ++ " " ++ description ++ " connection from " ++
        source_id ++ " to " ++ target_id
    let r := generate_embedding text_for_embedding none true st loader
    let document := dictSet document "embedding" (.jarr (r.1.map JValue.jnum))
    ("Connection created successfully with ID: " ++ mid,
     [⟨memory_index, mid, document⟩], r.2)

/-- A search hit as the result-processing loop reads it: `_id`,
`_score` and `_source`. -/
structure Hit where
  hid : String
  score : ℚ
  source : List (String × JValue)

/-- Python `sep.join(x)` where `x` is an arbitrary value: joins a
list of strings, iterates a string character-wise, and raises
`TypeError` on anything else. -/
def pyJoinJ (sep : String) (v : JValue) : Except String String :=
  match v with
  | .jarr xs => pyJoin sep xs
  | .jstr s => .ok (String.intercalate sep (s.toList.map String.singleton))
  | _ => .error "can only join an iterable"

/-- The per-hit formatting of `semantic_search_memories`
(memory.py lines 314-346): the `episodic`, `associative` and default
f-strings, with `source.get` defaults as in the source.  `i` is the
`enumerate` index. -/
def format_hit (o : PyOracle) (i : Nat) (h : Hit) : Except String String := do
  let source := h.source
  let mtv := dictGetD source "memory_type" (.jstr "unknown")
  if jEqStr mtv "episodic" then
    let kp ← pyJoinJ ", " (dictGetD source "key_points" (.jarr []))
    let tg ← pyJoinJ ", " (dictGetD source "tags" (.jarr []))
    return "Memory " ++ toString (i + 1) ++ ": " ++
      pyStrOf o (dictGetD source "title" (.jstr "Untitled")) ++
      " (Score: " ++ o.fmt2 h.score ++ ")\n" ++
      "Type: " ++ pyStrOf o mtv ++ "\n" ++
      "Content: " ++ pyStrOf o (dictGetD source "content" (.jstr "No content")) ++ "\n" ++
      "Key Points: " ++ kp ++ "\n" ++
      "Created: " ++ pyStrOf o (dictGetD source "created_at" (.jstr "Unknown")) ++ "\n" ++
      "Tags: " ++ tg ++ "\n" ++
      "ID: " ++ pyStrOf o (dictGetD source "memory_id" (.jstr h.hid)) ++ "\n"
  else if jEqStr mtv "associative" then
    let strengthTxt :=
      match dictGet source "strength" with
      | some v => pyStrOf o v
      | none => "0.5"
    return "Connection " ++ toString (i + 1) ++ ": " ++
      pyStrOf o (dictGetD source "title" (.jstr "Untitled")) ++
      " (Score: " ++ o.fmt2 h.score ++ ")\n" ++
      "Type: " ++ pyStrOf o mtv ++ "\n" ++
      "Relationship: " ++ pyStrOf o (dictGetD source "relationship_type" (.jstr "related")) ++ "\n" ++
      "Description: " ++ pyStrOf o (dictGetD source "content" (.jstr "No description")) ++ "\n" ++
      "From: " ++ pyStrOf o (dictGetD source "source_id" (.jstr "Unknown")) ++
      " To: " ++ pyStrOf o (dictGetD source "target_id" (.jstr "Unknown")) ++ "\n" ++
      "Strength: " ++ strengthTxt ++ "\n" ++
      "Created: " ++ pyStrOf o (dictGetD source "created_at" (.jstr "Unknown")) ++ "\n" ++
      "ID: " ++ pyStrOf o (dictGetD source "memory_id" (.jstr h.hid)) ++ "\n"
  else
    let tg ← pyJoinJ ", " (dictGetD source "tags" (.jarr []))
    return "Memory " ++ toString (i + 1) ++ ": " ++
      pyStrOf o (dictGetD source "title" (.jstr "Untitled")) ++
      " (Score: " ++ o.fmt2 h.score ++ ")\n" ++
      "Type: " ++ pyStrOf o mtv ++ "\n" ++
      "Content: " ++ pyStrOf o (dictGetD source "content" (.jstr "No content")) ++ "\n" ++
      "Created: " ++ pyStrOf o (dictGetD source "created_at" (.jstr "Unknown")) ++ "\n" ++
      "Tags: " ++ tg ++ "\n" ++
      "ID: " ++ pyStrOf o (dictGetD source "memory_id" (.jstr h.hid)) ++ "\n"

/-- The result-accumulation loop of `semantic_search_memories`
(memory.py lines 306-348): hits below `min_score` are skipped
(`continue`), the enumerate index keeps counting. -/
def build_results (o : PyOracle) (min_score : ℚ) :
    List (Nat × Hit) → Except String (List String)
  | [] => .ok []
  | (i, h) :: rest =>
      if h.score < min_score then build_results o min_score rest
      else
        match format_hit o i h with
        | .error e => .error e
        | .ok r =>
            match build_results o min_score rest with
            | .error e => .error e
            | .ok rs => .ok (r :: rs)

/-- One `update`-action/script pair appended by
`_update_access_stats` (memory.py lines 450-476): the painless script
increments `access_count`, sets `last_accessed` to the timestamp and
mirrors the increment into `metadata.access_count`. -/
structure BulkAction where
  index : String
  docId : String
  timestamp : String

/-- The bulk actions `_update_access_stats` builds for a list of ids
(memory.py lines 451-473).  The surrounding function catches every
exception from `es_client.bulk` and only logs a warning, so a bulk
failure never leaves `_update_access_stats`. -/
def update_access_stats_actions (index : String) (memory_ids : List String)
    (timestamp : String) : List BulkAction :=
  memory_ids.map (fun mid => ⟨index, mid, timestamp⟩)

/-- The attribute names bound on a `MemoryTools` instance.  From
src, the class body of `MemoryTools` binds only `register_tools`;
the tool closures and `_update_access_stats` are local functions of
`register_tools` and are never assigned to the class or the
instance.  Modelled from the spec: the base class `OpensearchClient`
(`es_client.py`, not under src) provides the storage-engine client
handle and logging (spec sections 2 and 6) and no access-stat
method, so it contributes `es_client` and `logger` only. -/
def memoryToolsAttrs : List String := ["register_tools", "es_client", "logger"]

/-- The text of the `AttributeError` raised by a failed attribute
lookup on a `MemoryTools` instance, as `str(e)` renders it. -/
def no_attribute_msg (attr : String) : String :=
  quoteStr "MemoryTools" ++ " object has no attribute " ++ quoteStr attr

/-- `semantic_search_memories` (memory.py lines 260-357).  Returns
(reply text, bulk actions issued, new singleton state).  `searchHits`
is the hit list of the backing store's response to the built hybrid
query.  After formatting, the source evaluates
`self._update_access_stats(...)`: the attribute lookup consults the
instance's attribute set; if it fails the raised `AttributeError` is
caught by the tool's outer handler, which returns the error text
instead of the formatted results. -/
def semantic_search_memories (o : PyOracle) (env : List (String × String))
    (st loader : Option Model) (searchHits : List Hit)
    (query : String) (memory_type : Option String) (size : Int) (min_score : ℚ)
    (timestamp : String) : String × List BulkAction × Option Model :=
  let memory_index := (get_config o env).default_memory_index
  let r := generate_embedding query none true st loader
  let _search_query :=
    get_hybrid_search_query o env query r.1 (some size) memory_type none
  let hits := searchHits
  if hits.isEmpty then
    ("No memories found matching the query.", [], r.2)
  else
    match build_results o min_score hits.enum with
    | .error e => ("Error searching memories: " ++ e, [], r.2)
    | .ok results =>
        let memory_ids := (hits.take 5).map Hit.hid
        if memoryToolsAttrs.contains "_update_access_stats" then
          (String.intercalate "\n\n" results,
           update_access_stats_actions memory_index memory_ids timestamp, r.2)
        else
          ("Error searching memories: " ++ no_attribute_msg "_update_access_stats",
           [], r.2)

/-- Modelled from the spec: the counterfactual read of claim C1 —
`semantic_search_memories` exactly as in the source but with the
access-stat update not attempted (memory.py lines 350-352 removed),
returning the formatted results directly. -/
def semantic_search_memories_without_stats (o : PyOracle)
    (env : List (String × String)) (st loader : Option Model)
    (searchHits : List Hit) (query : String) (memory_type : Option String)
    (size : Int) (min_score : ℚ) (_timestamp : String) :
    String × List BulkAction × Option Model :=
  let _memory_index := (get_config o env).default_memory_index
  let r := generate_embedding query none true st loader
  let _search_query :=
    get_hybrid_search_query o env query r.1 (some size) memory_type none
  let hits := searchHits
  if hits.isEmpty then
    ("No memories found matching the query.", [], r.2)
  else
    match build_results o min_score hits.enum with
    | .error e => ("Error searching memories: " ++ e, [], r.2)
    | .ok results => (String.intercalate "\n\n" results, [], r.2)

/-- The backing store's index-administration surface as
`initialize_memory_system` consults it: `indices.exists` and
`indices.get_mapping`. -/
structure StoreState where
  index_exists : String → Bool
  get_mapping : String → List (String × JValue)

/-- A mutating call `initialize_memory_system` can issue:
`indices.create(index=..., body=...)`. -/
inductive StoreOp where
  | createIndex : String → JValue → StoreOp

/-- The `index_settings` dict built when the index is missing
(memory.py lines 496-552), with the embedding dimension taken from
the configuration. -/
def memory_index_settings (dimension : Int) : JValue :=
  .jobj
    [ ("settings", .jobj [("index", .jobj
        [("knn", .jbool true), ("knn.space_type", .jstr "l2")])])
    , ("mappings", .jobj [("properties", .jobj
        [ ("memory_id", .jobj [("type", .jstr "keyword")])
        , ("memory_type", .jobj [("type", .jstr "keyword")])
        , ("title", .jobj [("type", .jstr "text")])
        , ("content", .jobj [("type", .jstr "text"), ("fields", .jobj
            [("keyword", .jobj [("type", .jstr "keyword"), ("ignore_above", .jnum 256)])])])
        , ("created_at", .jobj [("type", .jstr "date")])
        , ("updated_at", .jobj [("type", .jstr "date")])
        , ("tags", .jobj [("type", .jstr "keyword")])
        , ("embedding", .jobj
            [ ("type", .jstr "knn_vector")
            , ("dimension", .jnum (dimension : ℚ))
            , ("method", .jobj
                [ ("engine", .jstr "faiss")
                , ("space_type", .jstr "l2")
                , ("name", .jstr "hnsw")
                , ("parameters", .jobj []) ]) ])
        , ("confidence", .jobj [("type", .jstr "float")])
        , ("access_count", .jobj [("type", .jstr "integer")])
        , ("last_accessed", .jobj [("type", .jstr "date")])
        , ("session_id", .jobj [("type", .jstr "keyword")])
        , ("key_points", .jobj [("type", .jstr "text")])
        , ("next_steps", .jobj [("type", .jstr "text")])
        , ("source_id", .jobj [("type", .jstr "keyword")])
        , ("target_id", .jobj [("type", .jstr "keyword")])
        , ("relationship_type", .jobj [("type", .jstr "keyword")])
        , ("strength", .jobj [("type", .jstr "float")])
        , ("metadata", .jobj [("properties", .jobj
            [ ("confidence", .jobj [("type", .jstr "float")])
            , ("access_count", .jobj [("type", .jstr "long")])
            , ("source", .jobj [("type", .jstr "text"), ("fields", .jobj
                [("keyword", .jobj [("type", .jstr "keyword"), ("ignore_above", .jnum 256)])])]) ])]) ])])
    ]

/-- Python `v.get(k, default)` on an arbitrary value: raises
`AttributeError` unless `v` is a dict. -/
def pyGetAttrD (v : JValue) (k : String) (dflt : JValue) : Except String JValue :=
  match v with
  | .jobj kvs => .ok (dictGetD kvs k dflt)
  | _ => .error ("object has no attribute get: " ++ k)

/-- Python `k in v`: key membership for a dict, element membership
for a list, substring test for a string, `TypeError` otherwise. -/
def pyIn (k : String) (v : JValue) : Except String Bool :=
  match v with
  | .jobj kvs => .ok (dictGet kvs k).isSome
  | .jarr xs => .ok (xs.any (jEqStr · k))
  | .jstr s => .ok ((s.splitOn k).length > 1)
  | _ => .error "argument of type is not iterable"

/-- The `has_embedding` computation of `initialize_memory_system`
(memory.py lines 562-565) over the `get_mapping` response:
`has_embedding = "embedding" in properties and
properties["embedding"].get("type") == "knn_vector"`, reached only
when `memory_index in mapping`. -/
def has_embedding_check (mapping : List (String × JValue)) (memory_index : String) :
    Except String Bool :=
  match dictGet mapping memory_index with
  | none => .ok false
  | some mv => do
      let mappings ← pyGetAttrD mv "mappings" (.jobj [])
      let properties ← pyGetAttrD mappings "properties" (.jobj [])
      let hasEmb ← pyIn "embedding" properties
      if hasEmb then
        match properties with
        | .jobj kvs =>
            match dictGet kvs "embedding" with
            | some ev => do
                let t ← pyGetAttrD ev "type" .jnull
                return jEqStr t "knn_vector"
            | none => .error "KeyError: embedding"
        | _ => .error "value is not subscriptable"
      else
        return false

/-- `initialize_memory_system` (memory.py lines 480-573); the Lean
name drops the `initialize_` prefix.  Returns (reply text, issued
store mutations).  When the index is missing it issues the one
`indices.create` call; when it exists it only inspects the mapping
and reports, issuing no mutation; a raise from the mapping
inspection is caught by the tool's outer handler. -/
def init_memory_system (o : PyOracle) (env : List (String × String))
    (store : StoreState) : String × List StoreOp :=
  let memory_index := (get_config o env).default_memory_index
  if !(store.index_exists memory_index) then
    ("Memory system initialized with new index: " ++ memory_index,
     [.createIndex memory_index
        (memory_index_settings (get_config o env).embedding_dimension)])
  else
    match has_embedding_check (store.get_mapping memory_index) memory_index with
    | .error e => ("Error initializing memory system: " ++ e, [])
    | .ok true =>
        ("Memory system already initialized with proper vector capabilities. Index: " ++
           memory_index, [])
    | .ok false =>
        ("Memory index " ++ memory_index ++
           " exists but does not have vector search capabilities. Consider reindexing.", [])

/-- Apply one store mutation to the store state: creating an index
makes it exist. -/
def applyOp (s : StoreState) : StoreOp → StoreState
  | .createIndex idx _ =>
      { s with index_exists := fun j => if j = idx then true else s.index_exists j }

/-- Apply a list of store mutations in order. -/
def applyOps (s : StoreState) (ops : List StoreOp) : StoreState :=
  ops.foldl applyOp s

/-!  ## Concrete instances and claim-side definitions  -/

/-- A model whose dimension introspection reports 5 and whose encode
always raises. -/
def badModel5 : Model := { dim := some 5, encode := fun _ _ => none }

/-- A model whose dimension introspection reports 7 and whose encode
always raises. -/
def badModel7 : Model := { dim := some 7, encode := fun _ _ => none }

/-- The failure condition of claim C3: the model the call would
encode with fails — the passed model's encode raises; with no model
argument, the already-loaded singleton's encode raises; with nothing
loaded, the freshly loaded model's encode raises or the load itself
raises. -/
def model_failure (text : String) (normalize : Bool)
    (modelArg st loader : Option Model) : Prop :=
  match modelArg with
  | some m => m.encode (truncated text) normalize = none
  | none => match st with
    | some m => m.encode (truncated text) normalize = none
    | none => match loader with
      | some m => m.encode (truncated text) normalize = none
      | none => True

/-- The zero-vector dimension the amended claim C3 predicts: the
passed-in model argument's dimension when one was provided (its
introspection succeeding, else the default), and the default
configured dimension otherwise. -/
def failure_dim : Option Model → Nat
  | some m => m.dim.getD DEFAULT_DIMENSION
  | none => DEFAULT_DIMENSION

/-- A store whose memory index exists with a `knn_vector` embedding
mapping, used to instantiate C8. -/
def validStore : StoreState :=
  { index_exists := fun _ => true
  , get_mapping := fun idx =>
      [(idx, .jobj [("mappings", .jobj [("properties", .jobj
         [("embedding", .jobj [("type", .jstr "knn_vector")])])])])] }

/-- The per-document invariant of claim C10: `confidence` 1.0,
`access_count` 1, and `created_at`, `updated_at`, `last_accessed`
all equal to the creation timestamp. -/
def goodDoc (ts : String) (d : List (String × JValue)) : Prop :=
  dictGet d "confidence" = some (.jnum 1) ∧
  dictGet d "access_count" = some (.jnum 1) ∧
  dictGet d "created_at" = some (.jstr ts) ∧
  dictGet d "updated_at" = some (.jstr ts) ∧
  dictGet d "last_accessed" = some (.jstr ts)

/-- A document that already carries an `embedding` key. -/
def embeddedDoc : List (String × JValue) := [("embedding", .jstr "x")]

/-- The hit used to exercise the read path of claim C1: one result of
an unrecognised memory type with an empty source and a score above
the threshold. -/
def c1hit : Hit := { hid := "m1", score := 1, source := [] }

/-- A memory document with the given id and kind, optional title,
content and tag list, in the layout the store tools produce (lookup
keys are what `prepare_text_for_embedding` consults, so the entry
order beyond key uniqueness is immaterial). -/
def mkDoc (memory_id memory_type : String) (title : Option String)
    (content : Option JValue) (tags : Option (List String)) :
    List (String × JValue) :=
  [("memory_id", .jstr memory_id), ("memory_type", .jstr memory_type)] ++
  (match title with | some t => [(("title" : String), JValue.jstr t)] | none => []) ++
  (match content with | some c => [(("content" : String), c)] | none => []) ++
  (match tags with
   | some l => [(("tags" : String), JValue.jarr (l.map JValue.jstr))]
   | none => [])

/-- A structured (session/concept) content record with optional
summary, key_points and description fields. -/
def mkStructuredContent (summary : Option String) (key_points : Option (List String))
    (description : Option String) : JValue :=
  .jobj
    ((match summary with
      | some s => [(("summary" : String), JValue.jstr s)] | none => []) ++
     (match key_points with
      | some l => [(("key_points" : String), JValue.jarr (l.map JValue.jstr))]
      | none => []) ++
     (match description with
      | some d => [(("description" : String), JValue.jstr d)] | none => []))

/-- The text claim C7 describes: title first (if present and
non-empty), then summary, each key_points entry in list order and
description (skipping absent or empty fields), then the tags joined
with spaces, all joined with single spaces; when that is blank, the
fallback `"{id} {kind}"`; the final string is stripped either way,
as the code's closing `.strip()` does. -/
def claimed_normal_text (memory_id memory_type : String) (title summary : Option String)
    (key_points : Option (List String)) (description : Option String)
    (tags : Option (List String)) : String :=
  let parts : List String :=
    (match title with | some t => if t = "" then [] else [t] | none => []) ++
    (match summary with | some s => if s = "" then [] else [s] | none => []) ++
    (key_points.getD []) ++
    (match description with | some d => if d = "" then [] else [d] | none => []) ++
    (match tags with
     | some l => if l.isEmpty then [] else [String.intercalate " " l]
     | none => [])
  let combined := String.intercalate " " parts
  if pyStrip combined = "" then pyStrip (memory_id ++ " " ++ memory_type)
  else pyStrip combined

/-!  ## Helper lemmas  -/

/-- A list of wrapped strings extracts to the underlying strings. -/
theorem allStrings_map_jstr (l : List String) :
    allStrings (l.map JValue.jstr) = some l := by
  induction l with
  | nil => rfl
  | cons x xs ih => simp [allStrings, ih]

/-- Joining wrapped strings is plain intercalation. -/
theorem pyJoin_jstr (sep : String) (l : List String) :
    pyJoin sep (l.map JValue.jstr) = .ok (String.intercalate sep l) := by
  simp [pyJoin, allStrings_map_jstr]

/-- Appending an entry with a fresh key does not change other lookups. -/
theorem dictGet_append_ne (d : List (String × JValue)) (k0 : String) (v : JValue)
    (k : String) (hk : k ≠ k0) : dictGet (d ++ [(k0, v)]) k = dictGet d k := by
  induction d with
  | nil =>
      simp only [List.nil_append, dictGet]
      rw [if_neg (fun h => hk h.symm)]
  | cons p rest ih =>
      obtain ⟨k', v'⟩ := p
      by_cases h : k' = k
      · simp [dictGet, h]
      · simp [dictGet, h, ih]

/-- Setting an absent key appends the entry at the end. -/
theorem dictSet_absent (d : List (String × JValue)) (k : String) (v : JValue)
    (h : dictGet d k = none) : dictSet d k v = d ++ [(k, v)] := by
  induction d with
  | nil => rfl
  | cons p rest ih =>
      obtain ⟨k', v'⟩ := p
      simp only [dictGet] at h
      by_cases hk : k' = k
      · simp [hk] at h
      · simp only [dictSet, if_neg hk, List.cons_append, List.cons.injEq, true_and]
        exact ih (by simpa [hk] using h)

/-!  ## Claims  -/

/-- Claim C2: for a document whose `content` is a non-empty string
that parses as a JSON object, `prepare_text_for_embedding` is claimed
to append each string-typed value of the decoded object.  The code
does not: the plain-string branch captures every non-empty string
first, so the raw JSON text is appended and `json.loads` is never
consulted — the result below holds for every `json.loads` behaviour
(every oracle), including ones that decode the text to an object with
the string value `"hello"`. -/
theorem c2_json_content_appended_raw (o : PyOracle) :
    prepare_text_for_embedding o [("content", .jstr "\x7b\"a\": \"hello\"\x7d")] =
      .ok "\x7b\"a\": \"hello\"\x7d" ∧
    prepare_text_for_embedding o [("content", .jstr "\x7b\"a\": \"hello\"\x7d")] ≠
      .ok "hello" := by
  refine ⟨rfl, ?_⟩
  intro h
  rw [show prepare_text_for_embedding o [("content", .jstr "\x7b\"a\": \"hello\"\x7d")] =
        .ok "\x7b\"a\": \"hello\"\x7d" from rfl] at h
  exact absurd (Except.ok.inj h) (by decide)

/-- Claim C5: for empty or whitespace-only text,
`generate_embedding` returns a zero vector of the default dimension
(384), whatever the model argument, singleton state and loader. -/
theorem c5_blank_text_default_zero_vector (text : String)
    (model st loader : Option Model) (normalize : Bool) (h : pyStrip text = "") :
    generate_embedding text model normalize st loader =
      (List.replicate DEFAULT_DIMENSION 0, st) ∧ DEFAULT_DIMENSION = 384 :=
  ⟨by simp [generate_embedding, h], rfl⟩

/-- Witness for C5 at the whitespace-only input `"   "`. -/
theorem c5_blank_text_witness :
    pyStrip "   " = "" ∧
      (generate_embedding "   " none true none none =
        (List.replicate DEFAULT_DIMENSION 0, none) ∧ DEFAULT_DIMENSION = 384) :=
  ⟨by decide, c5_blank_text_default_zero_vector "   " none none none true (by decide)⟩

/-- Claim C3 counterexample: with the singleton already loaded with a
model of dimension 5 and no model argument passed, an encode failure
yields a zero vector of the default dimension 384, not of the loaded
model's dimension 5 — the failure branch inspects only the `model`
argument. -/
theorem c3_counterexample :
    (generate_embedding "hello" none true (some badModel5) none).1 =
      List.replicate 384 0 ∧
    ((generate_embedding "hello" none true (some badModel5) none).1).length ≠
      badModel5.dim.getD 0 := by
  refine ⟨rfl, ?_⟩
  rw [show (generate_embedding "hello" none true (some badModel5) none).1 =
        List.replicate 384 0 from rfl]
  simp only [List.length_replicate, badModel5, Option.getD_some]
  decide

/-- Claim C3 (amended): for non-blank text, whenever the embedding
model fails, `generate_embedding` returns a zero vector of dimension
`failure_dim modelArg` — governed by the model argument, not by the
loaded singleton; the function returns normally in every such
case. -/
theorem c3_amended_failure_dimension (text : String) (normalize : Bool)
    (modelArg st loader : Option Model) (hblank : pyStrip text ≠ "")
    (hfail : model_failure text normalize modelArg st loader) :
    (generate_embedding text modelArg normalize st loader).1 =
      List.replicate (failure_dim modelArg) 0 := by
  unfold generate_embedding
  rw [if_neg hblank]
  cases modelArg with
  | some m =>
      simp only [model_failure] at hfail
      simp [hfail, failure_dim]
  | none =>
      cases st with
      | some m =>
          simp only [model_failure] at hfail
          simp [get_embedding_model, hfail, failure_dim]
      | none =>
          cases loader with
          | some m =>
              simp only [model_failure] at hfail
              simp [get_embedding_model, hfail, failure_dim]
          | none => simp [get_embedding_model, failure_dim]

/-- Witness for the amended C3: a passed model of dimension 7 whose
encode raises yields a 7-dimensional zero vector. -/
theorem c3_amended_witness :
    pyStrip "hi" ≠ "" ∧ model_failure "hi" true (some badModel7) none none ∧
      (generate_embedding "hi" (some badModel7) true none none).1 =
        List.replicate (failure_dim (some badModel7)) 0 :=
  ⟨by decide, rfl, c3_amended_failure_dimension "hi" true (some badModel7) none none
      (by decide) rfl⟩

/-- Claim C6 counterexample: with `size = 0` (a falsy int), the built
query requests `k = 20` (twice the configured default size), not
`2 × 0`. -/
theorem c6_counterexample :
    (get_hybrid_search_query trivOracle [] "q" [] (some 0) none none).knn_k = 20 ∧
    (get_hybrid_search_query trivOracle [] "q" [] (some 0) none none).knn_k ≠
      2 * 0 := by
  refine ⟨rfl, ?_⟩
  rw [show (get_hybrid_search_query trivOracle [] "q" [] (some 0) none none).knn_k =
        20 from rfl]
  decide

/-- Claim C6 (amended): for every nonzero size, embedding and text
query, the hybrid query's knn component requests `k = 2 × size`
candidates, its multi_match component covers title (boost 2), content
(boost 1), key_points (boost 1) and tags (boost 1.5),
`minimum_should_match` is 1, a term filter on `memory_type` is
present exactly when a non-empty kind filter is given, and an
inclusive `created_at` range filter (with independently optional
bounds) exactly when a time range with at least one bound is given.
When size is zero or omitted the configured default (10) is used
instead, giving `k = 20`. -/
theorem c6_amended_query_structure (o : PyOracle) (env : List (String × String))
    (tq : String) (emb : List ℚ) (n : Int) (mt : Option String)
    (tr : Option TimeRange) (hn : n ≠ 0) :
    (get_hybrid_search_query o env tq emb (some n) mt tr).knn_k = 2 * n ∧
    (get_hybrid_search_query o env tq emb (some n) mt tr).multimatch_fields =
      ["title^2", "content", "key_points", "tags^1.5"] ∧
    (get_hybrid_search_query o env tq emb (some n) mt tr).minimum_should_match = 1 ∧
    (get_hybrid_search_query o env tq emb (some n) mt tr).filters =
      (match mt with
       | some s => if s ≠ "" then [QFilter.term "memory_type" s] else []
       | none => []) ++
      (match tr with
       | some t => if t.gte.isSome || t.lte.isSome
                   then [QFilter.range_created_at t.gte t.lte] else []
       | none => []) := by
  refine ⟨?_, rfl, rfl, ?_⟩
  · simp only [get_hybrid_search_query, if_neg hn]
    exact Int.mul_comm n 2
  · simp only [get_hybrid_search_query]
    cases mt with
    | none =>
        cases tr with
        | none => rfl
        | some t => by_cases h : t.gte.isSome || t.lte.isSome <;> simp [h]
    | some s =>
        by_cases hs : s = "" <;>
        · cases tr with
          | none => simp [hs]
          | some t =>
              by_cases h : t.gte.isSome || t.lte.isSome <;> simp [hs, h]

/-- Witness for the amended C6 at size 3, kind filter `episodic` and
a lower-bounded time range. -/
theorem c6_amended_witness :
    (3 : Int) ≠ 0 ∧
      ((get_hybrid_search_query trivOracle [] "q" [0] (some 3) (some "episodic")
          (some ⟨some "2024-01-01", none⟩)).knn_k = 2 * 3 ∧
       (get_hybrid_search_query trivOracle [] "q" [0] (some 3) (some "episodic")
          (some ⟨some "2024-01-01", none⟩)).multimatch_fields =
         ["title^2", "content", "key_points", "tags^1.5"] ∧
       (get_hybrid_search_query trivOracle [] "q" [0] (some 3) (some "episodic")
          (some ⟨some "2024-01-01", none⟩)).minimum_should_match = 1 ∧
       (get_hybrid_search_query trivOracle [] "q" [0] (some 3) (some "episodic")
          (some ⟨some "2024-01-01", none⟩)).filters =
         (match some "episodic" with
          | some s => if s ≠ "" then [QFilter.term "memory_type" s] else []
          | none => []) ++
         (match some (TimeRange.mk (some "2024-01-01") none) with
          | some t => if t.gte.isSome || t.lte.isSome
                      then [QFilter.range_created_at t.gte t.lte] else []
          | none => [])) :=
  ⟨by decide, c6_amended_query_structure trivOracle [] "q" [0] 3 (some "episodic")
      (some ⟨some "2024-01-01", none⟩) (by decide)⟩

/-- Claim C4: when the source memory, the target memory or both are
missing from the store, `create_memory_connection` indexes nothing
and returns the message naming exactly the missing endpoint(s). -/
theorem c4_missing_endpoint_no_write (o : PyOracle) (env : List (String × String))
    (st loader : Option Model) (store : String → Bool)
    (sid tid rt desc : String) (strength : ℚ) (mid : Option String)
    (tags : Option (List String)) (uuidHex ts : String)
    (h : store sid = false ∨ store tid = false) :
    (create_memory_connection o env st loader store sid tid rt desc strength
        mid tags uuidHex ts).2.1 = [] ∧
    (create_memory_connection o env st loader store sid tid rt desc strength
        mid tags uuidHex ts).1 =
      "Cannot create connection - " ++
        String.intercalate ", "
          ((if store sid = false then ["Source memory " ++ sid] else []) ++
           (if store tid = false then ["Target memory " ++ tid] else [])) ++
        " not found" := by
  cases hs : store sid <;> cases ht : store tid <;>
    simp_all [create_memory_connection]

/-- Witness for C4 at a missing source and an existing target: only
the source is named and nothing is indexed. -/
theorem c4_missing_endpoint_witness :
    ((fun id => id == "real-2") "missing-1" = false ∨
     (fun id => id == "real-2") "real-2" = false) ∧
      ((create_memory_connection trivOracle [] none none (fun id => id == "real-2")
          "missing-1" "real-2" "relates" "d" (1/2) none none "abcdef12" "T").2.1 = [] ∧
       (create_memory_connection trivOracle [] none none (fun id => id == "real-2")
          "missing-1" "real-2" "relates" "d" (1/2) none none "abcdef12" "T").1 =
        "Cannot create connection - " ++
          String.intercalate ", "
            ((if (fun id => id == "real-2") "missing-1" = false
              then ["Source memory " ++ "missing-1"] else []) ++
             (if (fun id => id == "real-2") "real-2" = false
              then ["Target memory " ++ "real-2"] else [])) ++
          " not found") :=
  ⟨Or.inl (by decide),
   c4_missing_endpoint_no_write trivOracle [] none none (fun id => id == "real-2")
     "missing-1" "real-2" "relates" "d" (1/2) none none "abcdef12" "T"
     (Or.inl (by decide))⟩

/-- Claim C8: in the `already_valid` case — the index exists and its
mapping carries an `embedding` field of type `knn_vector` —
`initialize_memory_system` issues no store mutation and returns the
fixed report, and running it again over the resulting (unchanged)
store state produces the same outcome. -/
theorem c8_init_idempotent_already_valid (o : PyOracle)
    (env : List (String × String)) (store : StoreState)
    (h1 : store.index_exists ((get_config o env).default_memory_index) = true)
    (h2 : has_embedding_check
        (store.get_mapping ((get_config o env).default_memory_index))
        ((get_config o env).default_memory_index) = .ok true) :
    init_memory_system o env store =
      ("Memory system already initialized with proper vector capabilities. Index: " ++
         (get_config o env).default_memory_index, []) ∧
    init_memory_system o env
        (applyOps store (init_memory_system o env store).2) =
      init_memory_system o env store := by
  have hmain : init_memory_system o env store =
      ("Memory system already initialized with proper vector capabilities. Index: " ++
         (get_config o env).default_memory_index, []) := by
    simp [init_memory_system, h1, h2]
  refine ⟨hmain, ?_⟩
  rw [hmain]
  show init_memory_system o env (applyOps store []) = _
  rw [show applyOps store [] = store from rfl, hmain]

/-- Witness for C8 at a concrete already-valid store. -/
theorem c8_init_idempotent_witness :
    validStore.index_exists ((get_config trivOracle []).default_memory_index) = true ∧
    has_embedding_check
        (validStore.get_mapping ((get_config trivOracle []).default_memory_index))
        ((get_config trivOracle []).default_memory_index) = .ok true ∧
      (init_memory_system trivOracle [] validStore =
        ("Memory system already initialized with proper vector capabilities. Index: " ++
           (get_config trivOracle []).default_memory_index, []) ∧
       init_memory_system trivOracle []
           (applyOps validStore (init_memory_system trivOracle [] validStore).2) =
         init_memory_system trivOracle [] validStore) :=
  ⟨rfl, rfl, c8_init_idempotent_already_valid trivOracle [] validStore rfl rfl⟩

/-- Setting one key does not change the lookup of a different key. -/
theorem dictGet_dictSet_ne (d : List (String × JValue)) (k : String) (v : JValue)
    (key : String) (h : key ≠ k) : dictGet (dictSet d k v) key = dictGet d key := by
  induction d with
  | nil =>
      simp only [dictSet, dictGet]
      rw [if_neg (fun hh => h hh.symm)]
  | cons p rest ih =>
      obtain ⟨k', v'⟩ := p
      by_cases hk : k' = k
      · subst hk
        simp only [dictSet, if_pos rfl, dictGet]
        rw [if_neg (fun hh => h hh.symm), if_neg (fun hh => h hh.symm)]
      · simp only [dictSet, if_neg hk, dictGet]
        by_cases hkey : k' = key
        · simp [hkey]
        · simp [hkey, ih]

/-- Enrichment only adds/overwrites the `embedding` key, so a
document satisfying the C10 invariant still satisfies it after a
successful enrichment. -/
theorem enrich_ok_preserves_goodDoc (o : PyOracle) (st loader : Option Model)
    (d : List (String × JValue)) (ts : String) (hgood : goodDoc ts d)
    (b : List (String × JValue)) (st2 : Option Model)
    (heq : enrich_document_with_embedding o st loader d = (.ok b, st2)) :
    goodDoc ts b := by
  unfold enrich_document_with_embedding at heq
  cases hp : prepare_text_for_embedding o d with
  | error e => rw [hp] at heq; simp at heq
  | ok t =>
      rw [hp] at heq
      have hb : Except.ok (dictSet d "embedding"
          (.jarr ((generate_embedding t none true st loader).1.map JValue.jnum))) =
          Except.ok (ε := String) b := congrArg Prod.fst heq
      obtain ⟨g1, g2, g3, g4, g5⟩ := hgood
      rw [← Except.ok.inj hb]
      exact ⟨by rw [dictGet_dictSet_ne _ _ _ _ (by decide)]; exact g1,
             by rw [dictGet_dictSet_ne _ _ _ _ (by decide)]; exact g2,
             by rw [dictGet_dictSet_ne _ _ _ _ (by decide)]; exact g3,
             by rw [dictGet_dictSet_ne _ _ _ _ (by decide)]; exact g4,
             by rw [dictGet_dictSet_ne _ _ _ _ (by decide)]; exact g5⟩

/-- Claim C10: every document persisted by `store_memory`,
`store_session_memory` or `create_memory_connection` carries
confidence 1.0, access_count 1 (not 0), and created_at, updated_at
and last_accessed all equal to the one creation timestamp. -/
theorem c10_new_docs_invariant (o : PyOracle) (env : List (String × String))
    (st loader : Option Model) (mt title content : String)
    (mid1 : Option String) (tags1 : Option (List String))
    (meta1 : Option (List (String × JValue)))
    (sess_id summary : String) (kps nss : List String)
    (mid2 : Option String) (tags2 : Option (List String))
    (meta2 : Option (List (String × JValue)))
    (store : String → Bool) (sid tid rt desc : String) (strength : ℚ)
    (mid3 : Option String) (tags3 : Option (List String))
    (uh ts : String) :
    ((store_memory o env st loader mt title content mid1 tags1 meta1 uh
        ts).2.1.map IndexedDoc.body).Forall (goodDoc ts) ∧
    ((store_session_memory o env st loader sess_id title summary kps nss mid2
        tags2 meta2 uh ts).2.1.map IndexedDoc.body).Forall (goodDoc ts) ∧
    ((create_memory_connection o env st loader store sid tid rt desc strength
        mid3 tags3 uh ts).2.1.map IndexedDoc.body).Forall (goodDoc ts) := by
  refine ⟨?_, ?_, ?_⟩
  · simp only [store_memory]
    split
    · next b st2 heq =>
        refine enrich_ok_preserves_goodDoc _ _ _ _ _ ?_ _ _ heq
        exact ⟨rfl, rfl, rfl, rfl, rfl⟩
    · exact trivial
  · exact ⟨rfl, rfl, rfl, rfl, rfl⟩
  · simp only [create_memory_connection]
    split
    · exact trivial
    · exact ⟨rfl, rfl, rfl, rfl, rfl⟩

/-- Claim C9 counterexample: enriching a document that already has an
`embedding` key replaces that binding in place — the output's key set
equals the input's (no key is added) and the original `embedding`
binding does not survive, refuting the claim for this input. -/
theorem c9_counterexample :
    (enrich_document_with_embedding trivOracle none none embeddedDoc).1 =
      .ok [("embedding", .jarr ((List.replicate 384 (0 : ℚ)).map JValue.jnum))] ∧
    keys [("embedding", .jarr ((List.replicate 384 (0 : ℚ)).map JValue.jnum))] =
      keys embeddedDoc ∧
    dictGet [("embedding", .jarr ((List.replicate 384 (0 : ℚ)).map JValue.jnum))]
        "embedding" ≠ dictGet embeddedDoc "embedding" := by
  refine ⟨rfl, rfl, ?_⟩
  intro h
  rw [show dictGet embeddedDoc "embedding" = some (.jstr "x") from rfl] at h
  rw [show dictGet [("embedding",
        .jarr ((List.replicate 384 (0 : ℚ)).map JValue.jnum))] "embedding" =
      some (.jarr ((List.replicate 384 (0 : ℚ)).map JValue.jnum)) from rfl] at h
  exact JValue.noConfusion (Option.some.inj h)

/-- Claim C9 (amended): for every document without an `embedding` key
whose text preparation succeeds, `enrich_document_with_embedding`
returns a new dictionary agreeing with the input on every key other
than `embedding` (hence on every original key) and whose key list is
the input's with `embedding` appended; the input is not mutated (the
embedding operates on a copy, and the model is pure state threaded
explicitly). -/
theorem c9_amended_enrich_adds_embedding (o : PyOracle) (st loader : Option Model)
    (doc : List (String × JValue)) (t : String)
    (h1 : dictGet doc "embedding" = none)
    (h2 : prepare_text_for_embedding o doc = .ok t) :
    (enrich_document_with_embedding o st loader doc).1 =
      .ok (doc ++ [("embedding",
        .jarr ((generate_embedding t none true st loader).1.map JValue.jnum))]) ∧
    keys (doc ++ [("embedding",
        .jarr ((generate_embedding t none true st loader).1.map JValue.jnum))]) =
      keys doc ++ ["embedding"] ∧
    ∀ k, k ≠ "embedding" →
      dictGet (doc ++ [("embedding",
        .jarr ((generate_embedding t none true st loader).1.map JValue.jnum))]) k =
      dictGet doc k := by
  refine ⟨?_, by simp [keys], fun k hk => dictGet_append_ne doc _ _ k hk⟩
  unfold enrich_document_with_embedding
  rw [h2]
  simp only
  rw [dictSet_absent doc _ _ h1]

/-- Witness for the amended C9 at a one-key document. -/
theorem c9_amended_witness :
    dictGet [(("title" : String), JValue.jstr "A")] "embedding" = none ∧
    prepare_text_for_embedding trivOracle [(("title" : String), JValue.jstr "A")] =
      .ok "A" ∧
      ((enrich_document_with_embedding trivOracle none none
          [(("title" : String), JValue.jstr "A")]).1 =
        .ok ([(("title" : String), JValue.jstr "A")] ++ [("embedding",
          .jarr ((generate_embedding "A" none true none none).1.map JValue.jnum))]) ∧
       keys ([(("title" : String), JValue.jstr "A")] ++ [("embedding",
          .jarr ((generate_embedding "A" none true none none).1.map JValue.jnum))]) =
        keys [(("title" : String), JValue.jstr "A")] ++ ["embedding"] ∧
       ∀ k, k ≠ "embedding" →
         dictGet ([(("title" : String), JValue.jstr "A")] ++ [("embedding",
           .jarr ((generate_embedding "A" none true none none).1.map JValue.jnum))]) k =
         dictGet [(("title" : String), JValue.jstr "A")] k) :=
  ⟨rfl, rfl, c9_amended_enrich_adds_embedding trivOracle none none
    [(("title" : String), JValue.jstr "A")] "A" rfl rfl⟩

/-- Claim C1: the read is claimed to return its successful result
even when the access-stat side channel fails.  It does not: the
source calls `self._update_access_stats(...)`, but
`_update_access_stats` is a local function of `register_tools` and is
never bound as an instance or class attribute, so the lookup raises
`AttributeError`; the tool's outer handler catches it and replaces
the already-formatted results with an error reply.  On one successful
hit, the embedded tool returns the error text while the counterfactual
read without the stat attempt returns the formatted result, and the
two differ. -/
theorem c1_stat_dispatch_changes_read_result :
    (semantic_search_memories trivOracle [] none none [c1hit] "q" none 10 (3/10)
        "T").1 =
      "Error searching memories: " ++ no_attribute_msg "_update_access_stats" ∧
    (semantic_search_memories_without_stats trivOracle [] none none [c1hit] "q"
        none 10 (3/10) "T").1 =
      "Memory 1: Untitled (Score: 1.00)\nType: unknown\nContent: No content\nCreated: Unknown\nTags: \nID: m1\n" ∧
    (semantic_search_memories trivOracle [] none none [c1hit] "q" none 10 (3/10)
        "T").1 ≠
    (semantic_search_memories_without_stats trivOracle [] none none [c1hit] "q"
        none 10 (3/10) "T").1 := by
  have hlt : ¬((1 : ℚ) < 3/10) := by norm_num
  have h1 : (semantic_search_memories trivOracle [] none none [c1hit] "q" none 10
      (3/10) "T").1 =
      "Error searching memories: " ++ no_attribute_msg "_update_access_stats" := by
    simp [semantic_search_memories, build_results, format_hit, c1hit, hlt,
          memoryToolsAttrs, List.enum, List.enumFrom, jEqStr, dictGetD, dictGet,
          pyJoinJ, pyJoin, allStrings, pyStrOf, Except.bind, Except.map,
          no_attribute_msg, quoteStr, update_access_stats_actions]
  have h2 : (semantic_search_memories_without_stats trivOracle [] none none [c1hit]
      "q" none 10 (3/10) "T").1 =
      "Memory 1: Untitled (Score: 1.00)\nType: unknown\nContent: No content\nCreated: Unknown\nTags: \nID: m1\n" := by
    simp only [semantic_search_memories_without_stats, build_results, format_hit,
          c1hit, hlt, List.enum, List.enumFrom, jEqStr, dictGetD, dictGet,
          pyJoinJ, pyJoin, allStrings, pyStrOf, Except.bind, Except.map,
          String.intercalate, trivOracle]
    rfl
  refine ⟨h1, h2, ?_⟩
  rw [h1, h2]
  decide

/-- Stripping the empty string gives the empty string. -/
theorem pyStrip_empty : pyStrip "" = "" := rfl

/-- The source's blank test `not combined_text or not
combined_text.strip()` is equivalent to blankness of the stripped
string. -/
theorem blank_or_strip (s : String) : (s = "" ∨ pyStrip s = "") ↔ pyStrip s = "" :=
  ⟨fun h => h.elim (fun he => by rw [he]; exact pyStrip_empty) id, Or.inr⟩

/-- Extracting strings from wrapped strings prepended to a rest. -/
theorem allStrings_map_jstr_append (l : List String) (rest : List JValue) :
    allStrings (l.map JValue.jstr ++ rest) =
      (allStrings rest).map (l ++ ·) := by
  induction l with
  | nil => cases h : allStrings rest <;> simp [allStrings, h]
  | cons s l ih => cases h : allStrings rest <;> simp [allStrings, ih, h]

set_option maxHeartbeats 4000000 in
/-- Claim C7: on every document whose content is a structured record
(any combination of present/absent title, summary, key_points,
description and tags, with arbitrary string values),
`prepare_text_for_embedding` returns exactly the text the claim
describes — title, then summary, key_points entries in order, then
description, then the tags joined with spaces, separated by single
spaces, with the `"{id} {kind}"` fallback when the result is
blank. -/
theorem c7_normalizer_order (o : PyOracle) (mid kind : String)
    (title summary : Option String) (kps : Option (List String))
    (desc : Option String) (tags : Option (List String)) :
    prepare_text_for_embedding o
        (mkDoc mid kind title (some (mkStructuredContent summary kps desc)) tags) =
      .ok (claimed_normal_text mid kind title summary kps desc tags) := by
  rcases title with _ | t <;> rcases summary with _ | sm <;> rcases kps with _ | kl <;>
    rcases desc with _ | d <;> rcases tags with _ | tl <;>
  · simp only [prepare_text_for_embedding, mkDoc, mkStructuredContent,
        claimed_normal_text, dictGet, dictGetD, truthy, pyStrOf, pyJoin,
        allStrings, allStrings_map_jstr, allStrings_map_jstr_append,
        List.cons_append, List.nil_append, List.append_nil,
        if_true, if_false, reduceIte, String.reduceEq, Option.getD_some,
        Option.getD_none, blank_or_strip, apply_ite pyStrip]
    try (split_ifs <;>
      simp_all [pyStrip_empty, blank_or_strip, allStrings,
        allStrings_map_jstr, allStrings_map_jstr_append, pyJoin, apply_ite pyStrip])
    try (simp_all [pyStrip_empty, blank_or_strip, allStrings,
        allStrings_map_jstr, allStrings_map_jstr_append, pyJoin, apply_ite pyStrip])
